import Mathlib

/-!
Shallow embedding of the NeuroAtlas-iOS data-preparation pipeline
(coordinate mapping, slice extraction, rasterization, region overlays),
translated from the Python sources:
  * `extract_slices_full.py` (`BrainSliceExtractor`)
  * `region_mask_generation/region_mask_generator.py` (`RegionMaskGenerator`)
  * `region_mask_generation/rotated_mask_generator.py` (`RotatedRegionMaskGenerator`)
  * `harvard_oxford_atlas/harvard_oxford_2mm_processor.py` (`HarvardOxfordProcessor`)

Numeric modelling: the Python code computes with float64, but every quantity
relevant to the verified claims is an integer or a dyadic rational that float64
represents exactly, so the embedding uses `ℚ` and `ℤ` with explicit truncation
and rounding functions mirroring Python/numpy semantics.

The file is organised as: all definitions first, then the theorems.
-/

namespace NeuroAtlas

/-- The three orthogonal slicing planes. -/
inductive Plane where
  | sagittal
  | coronal
  | axial
deriving DecidableEq, Repr

/-- Truncation toward zero, the semantics of Python `int(...)` applied to a
float and of numpy `.astype(int)`: since the denominator of a `ℚ` is
positive, `Int.tdiv` of numerator by denominator truncates toward zero. -/
def truncQ (q : ℚ) : ℤ := q.num.tdiv q.den

/-- Python `round` (round half to even), the semantics of
`round(...)` applied to the float MNI coordinates in
`determine_slice_positions`. -/
def pyRound (q : ℚ) : ℤ :=
  let f := Rat.floor q
  let r := q - (f : ℚ)
  if r < 1/2 then f
  else if 1/2 < r then f + 1
  else if f % 2 = 0 then f else f + 1

/-- Homogeneous extension of a 3-vector: `[x, y, z, 1]`
(`np.array([c[0], c[1], c[2], 1])`). -/
def homog (v : Fin 3 → ℚ) : Fin 4 → ℚ := Fin.snoc v 1

/-- `BrainSliceExtractor.voxel_to_mni` (extract_slices_full.py lines 50-59):
apply the affine to the homogeneous voxel index and keep the first three
components. -/
def voxel_to_mni (A : Matrix (Fin 4) (Fin 4) ℚ) (v : Fin 3 → ℤ) : Fin 3 → ℚ :=
  fun i => A.mulVec (homog fun j => (v j : ℚ)) i.castSucc

/-- `BrainSliceExtractor.mni_to_voxel` (extract_slices_full.py lines 106-115)
and `HarvardOxfordProcessor.mni_to_voxel` (harvard_oxford_2mm_processor.py
lines 127-131): apply the inverse affine to the homogeneous coordinate and
truncate to integers with `.astype(int)`.  The code computes
`np.linalg.inv(affine)`; the embedding takes the inverse matrix `B` as an
argument, with `B * A = 1` as a hypothesis where needed. -/
def mni_to_voxel (B : Matrix (Fin 4) (Fin 4) ℚ) (m : Fin 3 → ℚ) : Fin 3 → ℤ :=
  fun i => truncQ (B.mulVec (homog m) i.castSucc)

/-- `RegionMaskGenerator.mni_to_atlas_voxel` (region_mask_generator.py
lines 137-147 and the duplicate definition at lines 208-218, which is the one
Python keeps): hand-coded per-plane formula.
sagittal: `int((mni + 90) / 2 + 0.5)`;
coronal: `int((90 - mni) / 2 + 18)`;
axial: `int((mni + 72) / 2 + 0.5)`. -/
def rmg_mni_to_atlas_voxel (p : Plane) (mni : ℤ) : ℤ :=
  match p with
  | .sagittal => truncQ (((mni : ℚ) + 90) / 2 + 1/2)
  | .coronal  => truncQ ((90 - (mni : ℚ)) / 2 + 18)
  | .axial    => truncQ (((mni : ℚ) + 72) / 2 + 1/2)

/-- `RotatedRegionMaskGenerator.mni_to_atlas_voxel` (rotated_mask_generator.py
lines 91-101): hand-coded per-plane formula.
sagittal: `int((mni + 90) / 2)`;
coronal: `int((mni + 126) / 2)`;
axial: `int((mni + 72) / 2)`. -/
def rot_mni_to_atlas_voxel (p : Plane) (mni : ℤ) : ℤ :=
  match p with
  | .sagittal => truncQ (((mni : ℚ) + 90) / 2)
  | .coronal  => truncQ (((mni : ℚ) + 126) / 2)
  | .axial    => truncQ (((mni : ℚ) + 72) / 2)

/-- The affine of the MNI152 1mm template volume used by
`extract_slices_full.py` (voxel spacing 1mm, voxel `(90, 126, 72)` at the
origin of continuous space, X axis flipped), as printed by `load_template`
and recorded in `create_coordinate_mapping`'s bounds. -/
def A_mni1mm : Matrix (Fin 4) (Fin 4) ℚ :=
  !![-1, 0, 0, 90; 0, 1, 0, -126; 0, 0, 1, -72; 0, 0, 0, 1]

/-- The exact inverse of `A_mni1mm`, modelling `np.linalg.inv(affine)`. -/
def B_mni1mm : Matrix (Fin 4) (Fin 4) ℚ :=
  !![-1, 0, 0, 90; 0, 1, 0, 126; 0, 0, 1, 72; 0, 0, 0, 1]

/-- Python `sorted(list(set(l)))` (determine_slice_positions lines 87-89):
drop duplicates, then sort ascending. -/
def sortedDedup (l : List ℤ) : List ℤ :=
  List.insertionSort (· ≤ ·) l.dedup

/-- The sagittal position list of
`BrainSliceExtractor.determine_slice_positions` (lines 74-76, 87): each voxel
index `x` in `[0, x_dim)` is mapped through `voxel_to_mni([x, 0, 0])`, the X
component is rounded with `int(round(...))`, and the list is deduplicated and
sorted. -/
def xSlicePositions (A : Matrix (Fin 4) (Fin 4) ℚ) (xdim : ℕ) : List ℤ :=
  sortedDedup ((List.range xdim).map fun x => pyRound (voxel_to_mni A ![(x : ℤ), 0, 0] 0))

/-- Coronal position list (lines 78-80, 88): Y component of
`voxel_to_mni([0, y, 0])`. -/
def ySlicePositions (A : Matrix (Fin 4) (Fin 4) ℚ) (ydim : ℕ) : List ℤ :=
  sortedDedup ((List.range ydim).map fun y => pyRound (voxel_to_mni A ![0, (y : ℤ), 0] 1))

/-- Axial position list (lines 82-84, 89): Z component of
`voxel_to_mni([0, 0, z])`. -/
def zSlicePositions (A : Matrix (Fin 4) (Fin 4) ℚ) (zdim : ℕ) : List ℤ :=
  sortedDedup ((List.range zdim).map fun z => pyRound (voxel_to_mni A ![0, 0, (z : ℤ)] 2))

/-- Python/numpy indexing semantics for selecting index `i` along an axis of
size `n` (`volume[i, :, :]` etc.): a negative index with `-n ≤ i` silently
wraps to `i + n`; an index outside `[-n, n)` raises `IndexError` (`none`). -/
def numpyIndex (n : ℕ) (i : ℤ) : Option ℤ :=
  if 0 ≤ i ∧ i < (n : ℤ) then some i
  else if -(n : ℤ) ≤ i ∧ i < 0 then some (i + n)
  else none

/-- `BrainSliceExtractor.extract_slice` (extract_slices_full.py lines 117-148),
restricted to the voxel index it selects on the plane's fixed axis: the MNI
position (with the other two coordinates set to 0) is converted with
`mni_to_voxel` and the volume is indexed directly — the code performs no
bounds check — under numpy indexing semantics.  `some k` means the slice at
voxel `k` of that axis is returned; `none` means `IndexError` is raised. -/
def extract_slice_index (B : Matrix (Fin 4) (Fin 4) ℚ) (shape : ℕ × ℕ × ℕ)
    (p : Plane) (mniPosition : ℚ) : Option ℤ :=
  match p with
  | .sagittal => numpyIndex shape.1 (mni_to_voxel B ![mniPosition, 0, 0] 0)
  | .coronal  => numpyIndex shape.2.1 (mni_to_voxel B ![0, mniPosition, 0] 1)
  | .axial    => numpyIndex shape.2.2 (mni_to_voxel B ![0, 0, mniPosition] 2)

/-- The 2D array dimensions `(rows, cols)` of the anatomical slice returned by
`BrainSliceExtractor.extract_slice` for a volume of shape `(nx, ny, nz)`:
slicing fixes one axis and `np.rot90(_, k=1)` swaps the two remaining ones. -/
def anat_slice_dims (shape : ℕ × ℕ × ℕ) (p : Plane) : ℕ × ℕ :=
  match p with
  | .sagittal => (shape.2.2, shape.2.1)
  | .coronal  => (shape.2.2, shape.1)
  | .axial    => (shape.2.1, shape.1)

/-- The `image_size` parameter of `create_transparent_overlay`
(region_mask_generator.py line 97, rotated_mask_generator.py line 123):
PIL `(width, height) = (182, 218)`, the default used by every call site,
for every plane. -/
def overlay_image_size : ℕ × ℕ := (182, 218)

/-- The numpy array dimensions `(rows, cols)` of the emitted RGBA overlay:
`np.zeros((image_size[1], image_size[0], 4))`
(region_mask_generator.py line 110). -/
def overlay_array_dims : ℕ × ℕ := (overlay_image_size.2, overlay_image_size.1)

/-- Python `f"{n:+03d}"`: explicit sign, and zero-padding to a minimum total
width of 3 characters including the sign, so the digit part is padded to
width 2 and three-digit magnitudes are rendered unpadded. -/
def formatPlus03d (n : ℤ) : String :=
  let sign := if n < 0 then "-" else "+"
  let digits := toString n.natAbs
  let padded := if digits.length < 2 then "0" ++ digits else digits
  sign ++ padded

/-- The slice artifact filename `f"{plane}_{mni_position:+03d}.png"`
(extract_slices_full.py line 176; region_mask_generator.py line 201;
rotated_mask_generator.py line 189). -/
def slice_filename (plane : String) (mniPosition : ℤ) : String :=
  plane ++ "_" ++ formatPlus03d mniPosition ++ ".png"

/-- `create_region_mask` (region_mask_generator.py lines 79-95,
rotated_mask_generator.py lines 103-107): the binary mask
`(region_data == region_id).astype(np.uint8)` of a 2D label slice. -/
def create_region_mask (regionData : ℕ → ℕ → ℕ) (regionId : ℕ) : ℕ → ℕ → ℕ :=
  fun i j => if regionData i j = regionId then 1 else 0

/-- PIL `Image.fromarray(...).resize(size, Image.NEAREST)` on a 2D array of
shape `(srcH, srcW)` resized to `(dstH, dstW)` rows/cols: each destination
pixel samples the source pixel nearest to its centre,
`src = ⌊(2·dst + 1) · srcSize / (2·dstSize)⌋`. -/
def resizeNearest (srcH srcW dstH dstW : ℕ) (g : ℕ → ℕ → ℕ) : ℕ → ℕ → ℕ :=
  fun i j => g ((2 * i + 1) * srcH / (2 * dstH)) ((2 * j + 1) * srcW / (2 * dstW))

/-- The `REGION_COLORS` dict literal exactly as written in source order
(region_mask_generator.py lines 33-44, identical in
rotated_mask_generator.py): note that key 5 appears twice. -/
def region_colors : List (ℕ × (ℕ × ℕ × ℕ)) :=
  [(4, (255, 0, 0)), (5, (0, 255, 0)), (12, (0, 0, 255)), (13, (255, 255, 0)),
   (17, (255, 0, 255)), (18, (0, 255, 255)), (5, (255, 128, 0)), (6, (128, 255, 0)),
   (10, (255, 0, 128)), (8, (128, 0, 255))]

/-- Python dict-literal lookup semantics with `d.get(k, default)`: a later
entry with a duplicate key silently overwrites an earlier one. -/
def dictGet {α : Type} (l : List (ℕ × α)) (k : ℕ) (dflt : α) : α :=
  (l.foldl (fun acc p => if p.1 = k then some p.2 else acc) none).getD dflt

/-- `REGION_COLORS.get(region_id, (255, 255, 255))`
(region_mask_generator.py line 113). -/
def region_color (regionId : ℕ) : ℕ × ℕ × ℕ := dictGet region_colors regionId (255, 255, 255)

/-- One pixel of `create_transparent_overlay` (region_mask_generator.py lines
97-122): the mask is multiplied by 255, nearest-neighbour-resized to
`image_size` (the RGBA array is `np.zeros((image_size[1], image_size[0], 4))`
= 218 rows by 182 cols), and each pixel whose resampled value exceeds 127 is
painted `(r, g, b, 128)`; every other pixel keeps the zero initialisation
`(0, 0, 0, 0)`. -/
def overlay_pixel (mask : ℕ → ℕ → ℕ) (srcH srcW : ℕ) (regionId : ℕ) (i j : ℕ) :
    ℕ × ℕ × ℕ × ℕ :=
  let resized := resizeNearest srcH srcW 218 182 fun a b => mask a b * 255
  if 127 < resized i j then
    ((region_color regionId).1, (region_color regionId).2.1, (region_color regionId).2.2, 128)
  else (0, 0, 0, 0)

/-- numpy `np.any(mask)` for a mask of dimensions `(h, w)`. -/
def np_any (g : ℕ → ℕ → ℕ) (h w : ℕ) : Bool :=
  (List.range h).any fun i => (List.range w).any fun j => g i j != 0

/-- The per-(slice, region) emission decision of `generate_masks_for_plane`
(region_mask_generator.py lines 183-204): when the binary mask has no set
voxel the `continue` skips the region and no artifact is stored; otherwise
the transparent overlay is created and saved. -/
def emitted_overlay (regionSlice : ℕ → ℕ → ℕ) (h w : ℕ) (regionId : ℕ) :
    Option (ℕ → ℕ → ℕ × ℕ × ℕ × ℕ) :=
  let mask := create_region_mask regionSlice regionId
  if np_any mask h w then some (fun i j => overlay_pixel mask h w regionId i j) else none

/-- The size of a volume of shape `(nx, ny, nz)` along the axis a plane
fixes. -/
def axis_dim (shape : ℕ × ℕ × ℕ) (p : Plane) : ℕ :=
  match p with
  | .sagittal => shape.1
  | .coronal  => shape.2.1
  | .axial    => shape.2.2

/-- `RotatedRegionMaskGenerator.extract_slice` (rotated_mask_generator.py
lines 74-89): converts the MNI coordinate with the hand-coded formula, checks
`0 <= voxel_coord < data.shape[axis]` and returns the in-bounds 2D slice
(paired with its dimensions), or the hard-coded empty slice
`np.zeros((91, 91))` when the voxel is out of bounds. -/
def rot_extract_slice (data : ℕ → ℕ → ℕ → ℕ) (shape : ℕ × ℕ × ℕ) (p : Plane)
    (mni : ℤ) : (ℕ × ℕ) × (ℕ → ℕ → ℕ) :=
  let v := rot_mni_to_atlas_voxel p mni
  match p with
  | .sagittal =>
      if 0 ≤ v ∧ v < (shape.1 : ℤ) then ((shape.2.1, shape.2.2), fun j k => data v.toNat j k)
      else ((91, 91), fun _ _ => 0)
  | .coronal =>
      if 0 ≤ v ∧ v < (shape.2.1 : ℤ) then ((shape.1, shape.2.2), fun i k => data i v.toNat k)
      else ((91, 91), fun _ _ => 0)
  | .axial =>
      if 0 ≤ v ∧ v < (shape.2.2 : ℤ) then ((shape.1, shape.2.1), fun i j => data i j v.toNat)
      else ((91, 91), fun _ _ => 0)

/-- The per-(plane, coordinate, region) emission decision of
`RotatedRegionMaskGenerator.generate_masks_for_plane` (rotated_mask_generator.py
lines 146-195): an overlay is saved exactly when the binary mask of the
extracted slice has a set voxel; the loop records nothing else — no
out-of-bounds skip is raised or logged. -/
def rot_emits (data : ℕ → ℕ → ℕ → ℕ) (shape : ℕ × ℕ × ℕ) (p : Plane)
    (mni : ℤ) (regionId : ℕ) : Bool :=
  let s := rot_extract_slice data shape p mni
  np_any (create_region_mask s.2 regionId) s.1.1 s.1.2

/-- numpy `np.percentile(a, q)` with the default linear interpolation:
`pos = q·(n-1)/100`, interpolating between the two nearest order statistics
of the sorted data (used by `save_slice_image`,
extract_slices_full.py lines 156-161). -/
def percentile (l : List ℚ) (q : ℚ) : ℚ :=
  let s := List.insertionSort (· ≤ ·) l
  let n := s.length
  let pos := q * ((n : ℚ) - 1) / 100
  let k := Rat.floor pos
  let a := s.getD k.toNat 0
  let b := s.getD (k.toNat + 1) a
  a + (pos - (k : ℚ)) * (b - a)

/-- `save_slice_image` background removal (lines 155-156):
`slice_clean[slice_clean < np.percentile(slice_clean, 10)] = 0`. -/
def slice_clean (l : List ℚ) : List ℚ :=
  let p10 := percentile l 10
  l.map fun x => if x < p10 then 0 else x

/-- `save_slice_image` contrast clip (lines 159-161):
`np.clip(slice_clean, p1, p99)` where `p1`/`p99` are the 1st and 99th
percentiles of the cleaned slice. -/
def slice_clipped (l : List ℚ) : List ℚ :=
  let c := slice_clean l
  let p1 := percentile c 1
  let p99 := percentile c 99
  c.map fun x => min (max x p1) p99

/-- numpy `a.min()` on a nonempty array (flattened). -/
def listMin : List ℚ → ℚ
  | [] => 0
  | x :: xs => xs.foldl min x

/-- numpy `a.max()` on a nonempty array (flattened). -/
def listMax : List ℚ → ℚ
  | [] => 0
  | x :: xs => xs.foldl max x

/-- `save_slice_image` normalization (lines 164-165): rescale the clipped
slice to `[0, 1]` only when `max > min`; otherwise the clipped slice is
passed on unchanged. -/
def slice_normalized (l : List ℚ) : List ℚ :=
  let c := slice_clipped l
  if listMin c < listMax c then
    c.map fun x => (x - listMin c) / (listMax c - listMin c)
  else c

/-- `CORTICAL_REGIONS` (harvard_oxford_2mm_processor.py lines 12-62). -/
def cortical_regions : List (ℕ × String) :=
  [(0, "Background"), (1, "Frontal Pole"), (2, "Insular Cortex"),
   (3, "Superior Frontal Gyrus"), (4, "Middle Frontal Gyrus"),
   (5, "Inferior Frontal Gyrus, pars triangularis"),
   (6, "Inferior Frontal Gyrus, pars opercularis"), (7, "Precentral Gyrus"),
   (8, "Temporal Pole"), (9, "Superior Temporal Gyrus, anterior division"),
   (10, "Superior Temporal Gyrus, posterior division"),
   (11, "Middle Temporal Gyrus, anterior division"),
   (12, "Middle Temporal Gyrus, posterior division"),
   (13, "Middle Temporal Gyrus, temporooccipital part"),
   (14, "Inferior Temporal Gyrus, anterior division"),
   (15, "Inferior Temporal Gyrus, posterior division"),
   (16, "Inferior Temporal Gyrus, temporooccipital part"), (17, "Postcentral Gyrus"),
   (18, "Superior Parietal Lobule"), (19, "Supramarginal Gyrus, anterior division"),
   (20, "Supramarginal Gyrus, posterior division"), (21, "Angular Gyrus"),
   (22, "Lateral Occipital Cortex, superior division"),
   (23, "Lateral Occipital Cortex, inferior division"), (24, "Intracalcarine Cortex"),
   (25, "Frontal Medial Cortex"),
   (26, "Juxtapositional Lobule Cortex (formerly Supplementary Motor Cortex)"),
   (27, "Subcallosal Cortex"), (28, "Paracingulate Gyrus"),
   (29, "Cingulate Gyrus, anterior division"), (30, "Cingulate Gyrus, posterior division"),
   (31, "Precuneous Cortex"), (32, "Cuneal Cortex"), (33, "Frontal Orbital Cortex"),
   (34, "Parahippocampal Gyrus, anterior division"),
   (35, "Parahippocampal Gyrus, posterior division"), (36, "Lingual Gyrus"),
   (37, "Temporal Fusiform Cortex, anterior division"),
   (38, "Temporal Fusiform Cortex, posterior division"),
   (39, "Temporal Occipital Fusiform Cortex"), (40, "Occipital Fusiform Gyrus"),
   (41, "Frontal Operculum Cortex"), (42, "Central Opercular Cortex"),
   (43, "Parietal Operculum Cortex"), (44, "Planum Polare"),
   (45, "Heschl\x27s Gyrus (includes H1 and H2)"), (46, "Planum Temporale"),
   (47, "Supracalcarine Cortex"), (48, "Occipital Pole")]

/-- `SUBCORTICAL_REGIONS` (harvard_oxford_2mm_processor.py lines 64-89). -/
def subcortical_regions : List (ℕ × String) :=
  [(0, "Background"), (1, "Left Cerebral White Matter"), (2, "Left Cerebral Cortex"),
   (3, "Left Lateral Ventricle"), (4, "Left Thalamus"), (5, "Left Caudate"),
   (6, "Left Putamen"), (7, "Left Pallidum"), (8, "3rd Ventricle"), (9, "4th Ventricle"),
   (10, "Brain Stem"), (11, "Left Hippocampus"), (12, "Left Amygdala"),
   (13, "Left Accumbens"), (14, "Right Cerebral White Matter"),
   (15, "Right Cerebral Cortex"), (16, "Right Lateral Ventricle"), (17, "Right Thalamus"),
   (18, "Right Caudate"), (19, "Right Putamen"), (20, "Right Pallidum"),
   (21, "Right Hippocampus"), (22, "Right Amygdala"), (23, "Right Accumbens")]

/-- The `PRIORITY_REGIONS` dict literal exactly as written in source order
(region_mask_generator.py lines 16-30, identical in
rotated_mask_generator.py): the key 5 is written twice, once as the cortical
Postcentral Gyrus and once as the subcortical Caudate, and the subcortical
entries carry no namespacing offset. -/
def priority_regions : List (ℕ × String) :=
  [(4, "Precentral Gyrus"), (5, "Postcentral Gyrus"), (12, "Superior Frontal Gyrus"),
   (13, "Middle Frontal Gyrus"), (17, "Hippocampus"), (18, "Amygdala"),
   (5, "Caudate"), (6, "Putamen"), (10, "Thalamus"), (8, "Cerebellum Crus I")]

/-- The cortical ids `get_regions_at_coordinate` can report
(harvard_oxford_2mm_processor.py lines 148-155): the raw label, for labels
`> 0` present in `CORTICAL_REGIONS`. -/
def reported_cortical_ids : List ℕ :=
  (cortical_regions.map Prod.fst).filter fun k => 0 < k

/-- The subcortical ids `get_regions_at_coordinate` can report
(harvard_oxford_2mm_processor.py lines 157-165) and `create_region_list`
stores (lines 249-256): the raw label plus the namespacing offset 1000, for
labels `> 0` present in `SUBCORTICAL_REGIONS`. -/
def reported_subcortical_ids : List ℕ :=
  ((subcortical_regions.map Prod.fst).filter fun k => 0 < k).map fun k => k + 1000

end NeuroAtlas

namespace NeuroAtlas

theorem truncQ_intCast (n : ℤ) : truncQ (n : ℚ) = n := by
  simp [truncQ]

theorem sortedDedup_sorted_le (l : List ℤ) : (sortedDedup l).Sorted (· ≤ ·) :=
  List.sorted_insertionSort _ _

theorem sortedDedup_nodup (l : List ℤ) : (sortedDedup l).Nodup :=
  (List.perm_insertionSort _ l.dedup).symm.nodup l.nodup_dedup

theorem sortedDedup_sorted_lt (l : List ℤ) : (sortedDedup l).Sorted (· < ·) :=
  (sortedDedup_sorted_le l).lt_of_le (sortedDedup_nodup l)

theorem sortedDedup_length (l : List ℤ) : (sortedDedup l).length = l.toFinset.card := by
  unfold sortedDedup
  rw [(List.perm_insertionSort _ l.dedup).length_eq]
  exact (List.card_toFinset l).symm

/-- C1 counterexample: at the integer MNI coordinate -89 on the sagittal
plane, `region_mask_generator`'s hand-coded conversion yields voxel 1 while
`rotated_mask_generator`'s yields voxel 0, so the three coordinate-to-voxel
conversions do not all agree. -/
theorem C1_counterexample :
    ¬ (rmg_mni_to_atlas_voxel Plane.sagittal (-89)
        = rot_mni_to_atlas_voxel Plane.sagittal (-89)) := by
  norm_num [rmg_mni_to_atlas_voxel, rot_mni_to_atlas_voxel, truncQ]
  decide

/-- C1 (amended): the conversions are not equivalent — on every plane there is
an integer MNI coordinate at which the hand-coded formula of
`region_mask_generator.mni_to_atlas_voxel` and the hand-coded formula of
`rotated_mask_generator.mni_to_atlas_voxel` yield different voxel indices. -/
theorem C1_formulas_disagree :
    ∀ p : Plane, ∃ mni : ℤ,
      rmg_mni_to_atlas_voxel p mni ≠ rot_mni_to_atlas_voxel p mni := by
  intro p
  cases p with
  | sagittal =>
      refine ⟨-89, by
        norm_num [rmg_mni_to_atlas_voxel, rot_mni_to_atlas_voxel, truncQ]
        decide⟩
  | coronal =>
      refine ⟨2, by
        norm_num [rmg_mni_to_atlas_voxel, rot_mni_to_atlas_voxel, truncQ]⟩
  | axial =>
      refine ⟨-71, by
        norm_num [rmg_mni_to_atlas_voxel, rot_mni_to_atlas_voxel, truncQ]
        decide⟩

/-- C2: round-trip.  For a volume whose 4-by-4 affine `A` is homogeneous
(last row `[0,0,0,1]`) and invertible with exact inverse `B`, converting any
in-range voxel index with `voxel_to_mni` and converting the result back with
`mni_to_voxel` (inverse affine followed by truncation) returns exactly the
original voxel index. -/
theorem C2_roundtrip (A B : Matrix (Fin 4) (Fin 4) ℚ) (hBA : B * A = 1)
    (hrow : A (Fin.last 3) = ![0, 0, 0, 1])
    (n : Fin 3 → ℕ) (v : Fin 3 → ℤ)
    (hv : ∀ i, 0 ≤ v i ∧ v i < (n i : ℤ)) :
    mni_to_voxel B (voxel_to_mni A v) = v := by
  have hlast : A.mulVec (homog fun j => (v j : ℚ)) (Fin.last 3) = 1 := by
    have hd : A.mulVec (homog fun j => (v j : ℚ)) (Fin.last 3)
        = Matrix.dotProduct (A (Fin.last 3)) (homog fun j => (v j : ℚ)) := rfl
    rw [hd, hrow]
    have hw3 : homog (fun j => ((v j : ℚ))) 3 = 1 := Fin.snoc_last _ _
    simp [Matrix.dotProduct, Fin.sum_univ_four, hw3]
  have hw : homog (voxel_to_mni A v) = A.mulVec (homog fun j => (v j : ℚ)) := by
    funext k
    refine Fin.lastCases ?_ (fun j => ?_) k
    · rw [hlast]
      simp [homog, Fin.snoc_last]
    · simp only [homog, Fin.snoc_castSucc]
      rfl
  funext i
  show truncQ (B.mulVec (homog (voxel_to_mni A v)) i.castSucc) = v i
  rw [hw, Matrix.mulVec_mulVec, hBA, Matrix.one_mulVec]
  simp only [homog, Fin.snoc_castSucc]
  exact truncQ_intCast (v i)

/-- C2 witness: the round-trip evaluated on the MNI152 1mm template affine at
the in-range voxel index `(37, 52, 11)` of the `(182, 218, 182)` volume. -/
theorem C2_witness :
    B_mni1mm * A_mni1mm = 1 ∧
    A_mni1mm (Fin.last 3) = ![0, 0, 0, 1] ∧
    (∀ i, 0 ≤ (![37, 52, 11] : Fin 3 → ℤ) i ∧
      (![37, 52, 11] : Fin 3 → ℤ) i < ((![182, 218, 182] : Fin 3 → ℕ) i : ℤ)) ∧
    mni_to_voxel B_mni1mm (voxel_to_mni A_mni1mm ![37, 52, 11]) = ![37, 52, 11] := by
  have h1 : B_mni1mm * A_mni1mm = 1 := by
    ext i j
    fin_cases i <;> fin_cases j <;>
      simp +decide [A_mni1mm, B_mni1mm, Matrix.mul_apply, Fin.sum_univ_four, Matrix.one_apply,
        Matrix.vecHead, Matrix.vecTail]
  have h2 : A_mni1mm (Fin.last 3) = ![0, 0, 0, 1] := by
    funext j
    have h3 : Fin.last 3 = (3 : Fin 4) := rfl
    rw [h3]
    fin_cases j <;> simp [A_mni1mm, Matrix.vecHead, Matrix.vecTail]
  have h3 : ∀ i, 0 ≤ (![37, 52, 11] : Fin 3 → ℤ) i ∧
      (![37, 52, 11] : Fin 3 → ℤ) i < ((![182, 218, 182] : Fin 3 → ℕ) i : ℤ) := by
    intro i
    fin_cases i <;> norm_num
  exact ⟨h1, h2, h3, C2_roundtrip A_mni1mm B_mni1mm h1 h2 ![182, 218, 182] ![37, 52, 11] h3⟩

/-- C4: the per-plane position lists produced by `determine_slice_positions`
are strictly ascending and duplicate-free, and each list has exactly as many
elements as there are distinct rounded continuous coordinates over the
corresponding voxel-index range. -/
theorem C4_slice_positions (A : Matrix (Fin 4) (Fin 4) ℚ) (nx ny nz : ℕ)
    (hInv : ∃ B, B * A = 1) :
    ((xSlicePositions A nx).Sorted (· < ·) ∧ (xSlicePositions A nx).Nodup ∧
      (xSlicePositions A nx).length
        = ((List.range nx).map fun x => pyRound (voxel_to_mni A ![(x : ℤ), 0, 0] 0)).toFinset.card) ∧
    ((ySlicePositions A ny).Sorted (· < ·) ∧ (ySlicePositions A ny).Nodup ∧
      (ySlicePositions A ny).length
        = ((List.range ny).map fun y => pyRound (voxel_to_mni A ![0, (y : ℤ), 0] 1)).toFinset.card) ∧
    ((zSlicePositions A nz).Sorted (· < ·) ∧ (zSlicePositions A nz).Nodup ∧
      (zSlicePositions A nz).length
        = ((List.range nz).map fun z => pyRound (voxel_to_mni A ![0, 0, (z : ℤ)] 2)).toFinset.card) :=
  ⟨⟨sortedDedup_sorted_lt _, sortedDedup_nodup _, sortedDedup_length _⟩,
   ⟨sortedDedup_sorted_lt _, sortedDedup_nodup _, sortedDedup_length _⟩,
   ⟨sortedDedup_sorted_lt _, sortedDedup_nodup _, sortedDedup_length _⟩⟩

/-- C4 witness: the slice-position property evaluated on the MNI152 1mm
template affine with a small shape. -/
theorem C4_witness :
    (∃ B, B * A_mni1mm = 1) ∧
    ((xSlicePositions A_mni1mm 3).Sorted (· < ·) ∧ (xSlicePositions A_mni1mm 3).Nodup ∧
      (xSlicePositions A_mni1mm 3).length
        = ((List.range 3).map fun x => pyRound (voxel_to_mni A_mni1mm ![(x : ℤ), 0, 0] 0)).toFinset.card) ∧
    ((ySlicePositions A_mni1mm 3).Sorted (· < ·) ∧ (ySlicePositions A_mni1mm 3).Nodup ∧
      (ySlicePositions A_mni1mm 3).length
        = ((List.range 3).map fun y => pyRound (voxel_to_mni A_mni1mm ![0, (y : ℤ), 0] 1)).toFinset.card) ∧
    ((zSlicePositions A_mni1mm 3).Sorted (· < ·) ∧ (zSlicePositions A_mni1mm 3).Nodup ∧
      (zSlicePositions A_mni1mm 3).length
        = ((List.range 3).map fun z => pyRound (voxel_to_mni A_mni1mm ![0, 0, (z : ℤ)] 2)).toFinset.card) := by
  have hInv : ∃ B, B * A_mni1mm = 1 := by
    refine ⟨B_mni1mm, ?_⟩
    ext i j
    fin_cases i <;> fin_cases j <;>
      simp +decide [A_mni1mm, B_mni1mm, Matrix.mul_apply, Fin.sum_univ_four, Matrix.one_apply,
        Matrix.vecHead, Matrix.vecTail]
  have h := C4_slice_positions A_mni1mm 3 3 3 hInv
  exact ⟨hInv, h.1, h.2.1, h.2.2⟩

/-- C3: evaluation of the code at the failing input.  For the MNI152 1mm
template (shape `(182, 218, 182)`, inverse affine `B_mni1mm`), requesting the
sagittal slice at MNI x = +91 — one unit beyond the +90 edge — converts to
the out-of-range voxel index -1, and `extract_slice`, having no bounds check,
silently wraps around under numpy indexing and returns the slice at voxel
181, which is the opposite-edge slice at MNI x = -91, instead of an explicit
no-data result. -/
theorem C3_wraparound_eval :
    mni_to_voxel B_mni1mm ![91, 0, 0] 0 = -1 ∧
    extract_slice_index B_mni1mm (182, 218, 182) Plane.sagittal 91 = some 181 ∧
    voxel_to_mni A_mni1mm ![181, 0, 0] 0 = -91 := by
  have h0 : homog ![(91 : ℚ), 0, 0] 0 = 91 := rfl
  have h1 : homog ![(91 : ℚ), 0, 0] 1 = 0 := rfl
  have h2 : homog ![(91 : ℚ), 0, 0] 2 = 0 := rfl
  have h3 : homog ![(91 : ℚ), 0, 0] 3 = 1 := rfl
  have hv : mni_to_voxel B_mni1mm ![91, 0, 0] 0 = -1 := by
    have hB : mni_to_voxel B_mni1mm ![91, 0, 0] 0
        = truncQ (B_mni1mm.mulVec (homog ![91, 0, 0]) 0) := rfl
    rw [hB]
    norm_num [Matrix.mulVec, Matrix.dotProduct, Fin.sum_univ_four, B_mni1mm,
      Matrix.vecHead, Matrix.vecTail, h0, h1, h2, h3, truncQ]
  refine ⟨hv, ?_, ?_⟩
  · have hE : extract_slice_index B_mni1mm (182, 218, 182) Plane.sagittal 91
        = numpyIndex 182 (mni_to_voxel B_mni1mm ![91, 0, 0] 0) := rfl
    rw [hE, hv]
    norm_num [numpyIndex]
  · have g0 : homog (fun j => ((![181, 0, 0] : Fin 3 → ℤ) j : ℚ)) 0 = 181 := rfl
    have g1 : homog (fun j => ((![181, 0, 0] : Fin 3 → ℤ) j : ℚ)) 1 = 0 := rfl
    have g2 : homog (fun j => ((![181, 0, 0] : Fin 3 → ℤ) j : ℚ)) 2 = 0 := rfl
    have g3 : homog (fun j => ((![181, 0, 0] : Fin 3 → ℤ) j : ℚ)) 3 = 1 := rfl
    have hA : voxel_to_mni A_mni1mm ![181, 0, 0] 0
        = A_mni1mm.mulVec (homog fun j => ((![181, 0, 0] : Fin 3 → ℤ) j : ℚ)) 0 := rfl
    rw [hA]
    norm_num [Matrix.mulVec, Matrix.dotProduct, Fin.sum_univ_four, A_mni1mm,
      Matrix.vecHead, Matrix.vecTail, g0, g1, g2, g3]

/-- C5: evaluation of the code at the failing input.  For the MNI152 1mm
template volume of shape `(182, 218, 182)` (the shape the mask generators'
own comments record as 182/218/182 slices), the coronal anatomical slice grid
is 182-by-182 and the sagittal one is 182-by-218, while every emitted region
overlay raster is 218-by-182 (`image_size` is the constant `(182, 218)` for
all planes) — the dimensions are not identical, contradicting the claim. -/
theorem C5_dimension_mismatch_eval :
    overlay_array_dims = (218, 182) ∧
    anat_slice_dims (182, 218, 182) Plane.coronal = (182, 182) ∧
    anat_slice_dims (182, 218, 182) Plane.coronal ≠ overlay_array_dims ∧
    anat_slice_dims (182, 218, 182) Plane.sagittal ≠ overlay_array_dims := by
  refine ⟨rfl, rfl, ?_, ?_⟩ <;> decide

/-- C7: evaluation of the code at the failing input.  The filename map of
`f"{plane}_{mni_position:+03d}.png"` is not strictly monotone from coordinates
to strings: within the coronal enumerated range, -126 < -9 yet the filename
for -9 (`coronal_-09.png`) is lexicographically smaller than the filename for
-126 (`coronal_-126.png`), and within the sagittal range -1 < 0 yet the
filename for 0 (`sagittal_+00.png`) is lexicographically smaller than the
filename for -1 (`sagittal_-01.png`, since the character `+` sorts before
`-`). -/
theorem C7_not_monotone_eval :
    ((-126 : ℤ) < -9 ∧
      slice_filename "coronal" (-9) < slice_filename "coronal" (-126)) ∧
    ((-1 : ℤ) < 0 ∧
      slice_filename "sagittal" 0 < slice_filename "sagittal" (-1)) := by
  refine ⟨⟨by decide, ?_⟩, ⟨by decide, ?_⟩⟩ <;>
    (rw [String.lt_iff_toList_lt]; decide)

/-- C6: every pixel of the emitted RGBA overlay is either painted with
exactly the region's RGB color and the fixed alpha 128 — precisely where the
nearest-neighbour-resampled binary mask `labelSlice == targetCode` is set —
or is fully transparent `(0, 0, 0, 0)`; and when the binary mask has no set
voxel in the slice, no overlay artifact is emitted at all. -/
theorem C6_overlay_pixels (regionSlice : ℕ → ℕ → ℕ) (h w regionId i j : ℕ) :
    (overlay_pixel (create_region_mask regionSlice regionId) h w regionId i j
      = if create_region_mask regionSlice regionId
            ((2 * i + 1) * h / (2 * 218)) ((2 * j + 1) * w / (2 * 182)) = 1
        then ((region_color regionId).1, (region_color regionId).2.1,
              (region_color regionId).2.2, 128)
        else (0, 0, 0, 0)) ∧
    (np_any (create_region_mask regionSlice regionId) h w = false →
      emitted_overlay regionSlice h w regionId = none) := by
  constructor
  · simp only [overlay_pixel, resizeNearest, create_region_mask]
    by_cases hc : regionSlice ((2 * i + 1) * h / (2 * 218)) ((2 * j + 1) * w / (2 * 182))
        = regionId
    · simp [hc]
    · simp [hc]
  · intro hnone
    simp [emitted_overlay, hnone]

/-- C6 witness: on the all-zero 2-by-2 label slice with target code 4, the
pixel at (0,0) is fully transparent and no overlay is emitted. -/
theorem C6_witness :
    overlay_pixel (create_region_mask (fun _ _ => 0) 4) 2 2 4 0 0 = (0, 0, 0, 0) ∧
    emitted_overlay (fun _ _ => 0) 2 2 4 = none := by
  have h := C6_overlay_pixels (fun _ _ => 0) 2 2 4 0 0
  refine ⟨?_, h.2 (by decide)⟩
  rw [h.1]
  decide

theorem foldl_min_le_init (xs : List ℚ) (a : ℚ) : xs.foldl min a ≤ a := by
  induction xs generalizing a with
  | nil => simp
  | cons y ys ih => exact le_trans (ih (min a y)) (min_le_left a y)

theorem foldl_min_le_mem (xs : List ℚ) (a x : ℚ) (hx : x ∈ xs) : xs.foldl min a ≤ x := by
  induction xs generalizing a with
  | nil => cases hx
  | cons y ys ih =>
    rcases List.mem_cons.mp hx with rfl | h
    · exact le_trans (foldl_min_le_init ys (min a x)) (min_le_right a x)
    · exact ih (min a y) h

theorem listMin_le_of_mem {l : List ℚ} {x : ℚ} (hx : x ∈ l) : listMin l ≤ x := by
  cases l with
  | nil => cases hx
  | cons y ys =>
    rcases List.mem_cons.mp hx with rfl | h
    · exact foldl_min_le_init ys x
    · exact foldl_min_le_mem ys y x h

theorem init_le_foldl_max (xs : List ℚ) (a : ℚ) : a ≤ xs.foldl max a := by
  induction xs generalizing a with
  | nil => simp
  | cons y ys ih => exact le_trans (le_max_left a y) (ih (max a y))

theorem mem_le_foldl_max (xs : List ℚ) (a x : ℚ) (hx : x ∈ xs) : x ≤ xs.foldl max a := by
  induction xs generalizing a with
  | nil => cases hx
  | cons y ys ih =>
    rcases List.mem_cons.mp hx with rfl | h
    · exact le_trans (le_max_right a x) (init_le_foldl_max ys (max a x))
    · exact ih (max a y) h

theorem le_listMax_of_mem {l : List ℚ} {x : ℚ} (hx : x ∈ l) : x ≤ listMax l := by
  cases l with
  | nil => cases hx
  | cons y ys =>
    rcases List.mem_cons.mp hx with rfl | h
    · exact init_le_foldl_max ys x
    · exact mem_le_foldl_max ys y x h

/-- C8 counterexample: on the constant slice `[0, 0]` the clipped slice is
constant (min = max = 0), the normalization is skipped, and the output is the
flat raster `[0, 0]` — at value 0, the bottom of the 0-to-1 output range, not
at its midpoint 1/2. -/
theorem C8_counterexample :
    listMin (slice_clipped [0, 0]) = listMax (slice_clipped [0, 0]) ∧
    slice_normalized [0, 0] = [0, 0] ∧
    (0 : ℚ) ∈ slice_normalized [0, 0] ∧ (0 : ℚ) ≠ 1/2 := by
  refine ⟨?_, ?_, ?_, by norm_num⟩ <;>
    norm_num [slice_normalized, slice_clipped, slice_clean, percentile,
      List.insertionSort, List.orderedInsert, Rat.floor, listMin, listMax]

/-- C8 (amended): the intensity rasterization never divides by zero — when
the clipped slice is constant (min = max after percentile clipping) the
normalization step is skipped and the output is the flat (uniform) raster at
the clipped constant value (not at the midpoint of the output range). -/
theorem C8_constant_slice_flat (l : List ℚ) (hne : l ≠ [])
    (hconst : listMin (slice_clipped l) = listMax (slice_clipped l)) :
    slice_normalized l = slice_clipped l ∧
    ∀ x ∈ slice_normalized l, x = listMin (slice_clipped l) := by
  have hskip : slice_normalized l = slice_clipped l := by
    unfold slice_normalized
    rw [if_neg]
    rw [hconst]
    exact lt_irrefl _
  refine ⟨hskip, ?_⟩
  intro x hx
  rw [hskip] at hx
  have h1 := listMin_le_of_mem hx
  have h2 := le_listMax_of_mem hx
  rw [← hconst] at h2
  exact le_antisymm h2 h1

/-- C8 witness: the amended statement evaluated on the constant slice
`[0, 0]`. -/
theorem C8_witness :
    ([0, 0] : List ℚ) ≠ [] ∧
    listMin (slice_clipped [0, 0]) = listMax (slice_clipped [0, 0]) ∧
    slice_normalized [0, 0] = slice_clipped [0, 0] ∧
    ∀ x ∈ slice_normalized [0, 0], x = listMin (slice_clipped [0, 0]) := by
  have hc : listMin (slice_clipped [0, 0]) = listMax (slice_clipped [0, 0]) := by
    norm_num [slice_clipped, slice_clean, percentile, List.insertionSort,
      List.orderedInsert, Rat.floor, listMin, listMax]
  have h := C8_constant_slice_flat [0, 0] (by simp) hc
  exact ⟨by simp, hc, h.1, h.2⟩

/-- C9 counterexample: the `PRIORITY_REGIONS` registry table, as written,
assigns the single numeric code 5 to two different region names
("Postcentral Gyrus" and "Caudate"), so one registry table does map one code
to two names — and the mask generators apply no +1000 offset to subcortical
codes. -/
theorem C9_counterexample :
    (5, "Postcentral Gyrus") ∈ priority_regions ∧
    (5, "Caudate") ∈ priority_regions ∧
    "Postcentral Gyrus" ≠ "Caudate" := by
  refine ⟨by decide, by decide, by decide⟩

/-- C9 (amended): the coordinate-lookup processor does namespace subcortical
ids by the +1000 offset, so the cortical ids and namespaced subcortical ids
it reports are disjoint; but the mask generators' `PRIORITY_REGIONS` table
reuses raw codes with no offset and assigns code 5 to two different regions
in a single table. -/
theorem C9_processor_disjoint_but_priority_collides :
    (∀ a ∈ reported_cortical_ids, ∀ b ∈ reported_subcortical_ids, a ≠ b) ∧
    (5, "Postcentral Gyrus") ∈ priority_regions ∧
    (5, "Caudate") ∈ priority_regions := by
  refine ⟨by decide, by decide, by decide⟩

theorem np_any_const_zero (h w regionId : ℕ) (hr : regionId ≠ 0) :
    np_any (create_region_mask (fun _ _ => 0) regionId) h w = false := by
  simp [np_any, create_region_mask, List.any_eq_false]
  intro i hi j hj
  exact fun hc => hr hc.symm

/-- C10: in the rotated mask generator, a coordinate whose converted voxel
index is out of bounds yields the hard-coded all-zero 91-by-91 slice from
`extract_slice`, and consequently the pipeline emits no overlay for any
nonzero target code — the same observable outcome (`rot_emits = false`) as a
slice in which the target code is simply absent; nothing else is recorded or
raised. -/
theorem C10_oob_indistinguishable (data : ℕ → ℕ → ℕ → ℕ) (shape : ℕ × ℕ × ℕ)
    (p : Plane) (mni : ℤ) (regionId : ℕ) (hr : regionId ≠ 0)
    (hoob : ¬ (0 ≤ rot_mni_to_atlas_voxel p mni ∧
        rot_mni_to_atlas_voxel p mni < (axis_dim shape p : ℤ))) :
    rot_extract_slice data shape p mni = ((91, 91), fun _ _ => 0) ∧
    rot_emits data shape p mni regionId = false := by
  have hz : rot_extract_slice data shape p mni = ((91, 91), fun _ _ => 0) := by
    cases p <;>
      simp only [rot_extract_slice, axis_dim] at hoob ⊢ <;>
      rw [if_neg hoob]
  refine ⟨hz, ?_⟩
  unfold rot_emits
  rw [hz]
  exact np_any_const_zero 91 91 regionId hr

/-- C10 witness: with the 2mm Harvard-Oxford atlas shape `(91, 109, 91)`,
the sagittal coordinate 1000 converts to voxel 545, far out of bounds; the
all-zero slice is returned and no overlay is emitted for region 17. -/
theorem C10_witness :
    (17 : ℕ) ≠ 0 ∧
    ¬ (0 ≤ rot_mni_to_atlas_voxel Plane.sagittal 1000 ∧
        rot_mni_to_atlas_voxel Plane.sagittal 1000
          < (axis_dim (91, 109, 91) Plane.sagittal : ℤ)) ∧
    rot_extract_slice (fun _ _ _ => 0) (91, 109, 91) Plane.sagittal 1000
      = ((91, 91), fun _ _ => 0) ∧
    rot_emits (fun _ _ _ => 0) (91, 109, 91) Plane.sagittal 1000 17 = false := by
  have hoob : ¬ (0 ≤ rot_mni_to_atlas_voxel Plane.sagittal 1000 ∧
      rot_mni_to_atlas_voxel Plane.sagittal 1000
        < (axis_dim (91, 109, 91) Plane.sagittal : ℤ)) := by
    norm_num [rot_mni_to_atlas_voxel, truncQ, axis_dim]
  have h := C10_oob_indistinguishable (fun _ _ _ => 0) (91, 109, 91) Plane.sagittal 1000 17
    (by decide) hoob
  exact ⟨by decide, hoob, h.1, h.2⟩

end NeuroAtlas
